import Mathlib

/-!
Shallow embedding of the hishtory release-artifact fetch, sign and verify
pipeline, together with theorems settling the specification claims about it.

The embedded code consists of four small Python scripts:
  * `src/backend/web/landing/www/install.py` — platform dispatch and the
    install flow (download, execute, clean up a temporary binary);
  * `src/scripts/actions-validate.py` — SLSA-attestation validation,
    macOS-signature validation, runtime-metadata (status) validation and
    the integrity precheck `assertPresentAndNotAscii`;
  * `src/scripts/actions-validate-macos-signature.py` — the standalone
    signature check (same four substring assertions);
  * `src/scripts/actions-sign.py` — `waitUntilPublished` (polling fetch),
    `notAscii`, and the signing shell script run through `os.system`.

External effects (HTTP responses, outputs of the `file`, `codesign` and
verifier tools, exit codes) are inputs of the embedded functions; the
filesystem is a map from path to optional byte content.
-/

namespace Hishtory

/-! ## Byte strings and filesystems -/

/-- File contents as a list of bytes. -/
abbrev Bytes := List Nat

/-- A filesystem: each path maps to `some` contents or `none` (absent). -/
abbrev Fs := String → Option Bytes

/-! ## Python substring containment (the `in` operator on `str`) -/

/-- Bool-valued substring test on character lists: `needle` occurs
contiguously inside `haystack`.  This is Python `needle in haystack`. -/
def listContainsSub (haystack needle : List Char) : Bool :=
  match haystack with
  | [] => needle.isEmpty
  | c :: t => needle.isPrefixOf (c :: t) || listContainsSub t needle

/-- Python `needle in haystack` for strings. -/
def containsSubstr (haystack needle : String) : Bool :=
  listContainsSub haystack.data needle.data

theorem isPrefixOf_append_self (n b : List Char) : n.isPrefixOf (n ++ b) = true := by
  induction n with
  | nil => simp [List.isPrefixOf]
  | cons c t ih => simp [List.isPrefixOf, ih]

theorem listContainsSub_of_isPrefixOf {h n : List Char} (hp : n.isPrefixOf h = true) :
    listContainsSub h n = true := by
  cases h with
  | nil =>
    cases n with
    | nil => simp [listContainsSub]
    | cons c t => simp only [List.isPrefixOf] at hp; exact absurd hp (by simp)
  | cons c t => simp [listContainsSub, hp]

theorem listContainsSub_cons {t n : List Char} (c : Char)
    (hm : listContainsSub t n = true) : listContainsSub (c :: t) n = true := by
  simp [listContainsSub, hm]

/-- A needle occurs in any haystack of the form `pre ++ needle ++ post`. -/
theorem listContainsSub_append_middle (pre n post : List Char) :
    listContainsSub (pre ++ n ++ post) n = true := by
  induction pre with
  | nil =>
    exact listContainsSub_of_isPrefixOf (by simp [isPrefixOf_append_self])
  | cons c t ih => simpa using listContainsSub_cons c ih

/-- String form of `listContainsSub_append_middle`. -/
theorem containsSubstr_append_middle (pre n post : String) :
    containsSubstr (pre ++ n ++ post) n = true := by
  have h := listContainsSub_append_middle pre.data n.data post.data
  simpa [containsSubstr, String.data_append] using h

/-! ## Platform Resolver
(`src/backend/web/landing/www/install.py`, lines 30–42)

The script chains `if platform.system() == ... and platform.machine() == ...`
tests; each supported pair selects one key of the download-options JSON
(`download_options[key]`), and the final `else` prints a diagnostic naming
the observed system and machine strings and exits with status 1.  The
resolver below returns the selected key, or the diagnostic as an error. -/

/-- The platform dispatch of `install.py`: maps `(platform.system(),
platform.machine())` to the download-URL key, or fails with the printed
diagnostic message (followed in the script by `sys.exit(1)`). -/
def resolveDownloadUrlKey (system machine : String) : Except String String :=
  if system = "Linux" ∧ machine = "x86_64" then .ok "linux_amd_64_url"
  else if system = "Linux" ∧ machine = "aarch64" then .ok "linux_arm_64_url"
  else if system = "Linux" ∧ machine = "armv7l" then .ok "linux_arm_7_url"
  else if system = "Darwin" ∧ machine = "arm64" then .ok "darwin_arm_64_url"
  else if system = "Darwin" ∧ machine = "x86_64" then .ok "darwin_amd_64_url"
  else .error ("No hishtory binary for system=" ++ system ++ ", machine=" ++ machine
    ++ "!\nIf you believe this is a mistake, please open an issue here: https://github.com/ddworken/hishtory/issues")

/-- Whether the resolver succeeded. -/
def resolvedOk (r : Except String String) : Bool :=
  match r with
  | .ok _ => true
  | .error _ => false

/-! ## Integrity Precheck
(`src/scripts/actions-validate.py` lines 68–73, `src/scripts/actions-sign.py`
lines 38–41)

Both functions run `file <fn>` and inspect its output; `assertPresentAndNotAscii`
first checks existence of the path.  The external `file` invocation is an
input: `fileOut` is the decoded output of `subprocess.check_output(["file", fn])`. -/

/-- Failure modes of the integrity precheck. -/
inductive PrecheckError where
  /-- `Exception(f"\x7bfn=\x7d does not exist, did it fail to download?")` -/
  | missingArtifact (fn : String)
  /-- `Exception(f"\x7bfn=\x7d is of type \x7bout\x7d")` -/
  | corruptArtifact (fn : String) (fileOut : String)
  deriving DecidableEq, Repr

/-- `assertPresentAndNotAscii` from `actions-validate.py`: raise if the path
does not exist, then raise if the output of `file` contains `"ASCII text"`. -/
def assertPresentAndNotAscii (pathExists : Bool) (fn fileOut : String) :
    Except PrecheckError Unit :=
  if ¬ pathExists then .error (.missingArtifact fn)
  else if containsSubstr fileOut "ASCII text" then .error (.corruptArtifact fn fileOut)
  else .ok ()

/-- `notAscii` from `actions-sign.py`: raise if the output of `file`
contains `"ASCII text"` (no existence check). -/
def notAscii (fn fileOut : String) : Except PrecheckError Unit :=
  if containsSubstr fileOut "ASCII text" then .error (.corruptArtifact fn fileOut)
  else .ok ()

/-! ## Signature Auditor
(`src/scripts/actions-validate.py` lines 44–51 and
`src/scripts/actions-validate-macos-signature.py` lines 5–12; the two bodies
perform the same sequence of checks)

The function asserts `shutil.which("codesign") is not None`, runs
`codesign -dv --verbose=4 <filename>` (output `out`, stderr combined), and then
asserts four substrings of `out`, each with its own `assert` statement, in
source order. -/

/-- Expected signer identity line. -/
def signerIdentityStr : String := "Authority=Developer ID Application: David Dworken (QUXLNCT7FA)"

/-- Expected intermediate certificate-authority line. -/
def intermediateCaStr : String := "Authority=Developer ID Certification Authority"

/-- Expected root certificate-authority line. -/
def rootCaStr : String := "Authority=Apple Root CA"

/-- Expected team identifier line. -/
def teamIdStr : String := "TeamIdentifier=QUXLNCT7FA"

/-- Failure modes of the signature audit: the absent `codesign` tool, or one
distinct failure per missing expected substring (each a separate `assert`
statement in the source). -/
inductive SigError where
  | toolingUnavailable
  | missingSignerIdentity
  | missingIntermediateCa
  | missingRootCa
  | missingTeamId
  deriving DecidableEq, Repr

/-- `validate_macos_signature`: `codesignAvailable` models
`shutil.which("codesign") is not None`; `out` is the combined output of
`codesign -dv --verbose=4 <filename>`.  The four substring assertions run in
source order, so the first absent substring determines the error. -/
def validate_macos_signature (codesignAvailable : Bool) (out : String) :
    Except SigError Unit :=
  if ¬ codesignAvailable then .error .toolingUnavailable
  else if ¬ containsSubstr out signerIdentityStr then .error .missingSignerIdentity
  else if ¬ containsSubstr out intermediateCaStr then .error .missingIntermediateCa
  else if ¬ containsSubstr out rootCaStr then .error .missingRootCa
  else if ¬ containsSubstr out teamIdStr then .error .missingTeamId
  else .ok ()

/-! ## Attestation Auditor
(`src/scripts/actions-validate.py` lines 9–42, `validate_slsa`)

For each artifact in `ALL_FILES` the loop body asserts existence of the
artifact, of `<artifact>.intoto.jsonl`, and — when the artifact name contains
`"darwin"` — of `<artifact>-unsigned`; it then runs the verifier binary via
`subprocess.check_output` (a nonzero exit raises `CalledProcessError`, which
the `except` clause prints and re-raises) and asserts the two acknowledgment
substrings in the combined output, each assert carrying `out` as its message. -/

/-- The four artifacts validated by `actions-validate.py` (`ALL_FILES`). -/
def ALL_FILES : List String :=
  ["hishtory-linux-amd64", "hishtory-linux-arm64", "hishtory-darwin-amd64", "hishtory-darwin-arm64"]

/-- Result of running the verifier subprocess: exit code plus combined
stdout/stderr (`stderr=subprocess.STDOUT`). -/
structure VerifierResult where
  exitCode : Nat
  output : String

/-- Transparency-log acknowledgment phrase asserted by `validate_slsa`. -/
def tlogPhrase : String := "Verified signature against tlog entry"

/-- Expected-builder acknowledgment phrase asserted by `validate_slsa`. -/
def builderPhrase : String := "Verified build using builder"

/-- Failure modes of the per-artifact SLSA validation.  A failed existence
assertion is `missingInput` (naming the absent file); a nonzero verifier exit
is `verifierFailed` (the re-raised `CalledProcessError`, output surfaced); a
missing acknowledgment phrase is `attestationFailed` (the assert carries the
full verifier output). -/
inductive SlsaError where
  | missingInput (fn : String)
  | verifierFailed (exitCode : Nat) (output : String)
  | attestationFailed (output : String)
  deriving DecidableEq, Repr

/-- Argument list passed to the verifier for one artifact: the darwin branch
adds the macOS flags pointing at the unsigned sibling. -/
def slsaArgs (filename : String) : List String :=
  if containsSubstr filename "darwin" then
    ["validate-binary", filename, filename ++ ".intoto.jsonl",
     "--is_macos=True", "--macos_unsigned_binary=" ++ filename ++ "-unsigned"]
  else
    ["validate-binary", filename, filename ++ ".intoto.jsonl"]

/-- The checks performed on the verifier result: nonzero exit raises; then the
two acknowledgment substrings are asserted in order. -/
def checkVerifierResult (r : VerifierResult) : Except SlsaError Unit :=
  if r.exitCode ≠ 0 then .error (.verifierFailed r.exitCode r.output)
  else if ¬ containsSubstr r.output tlogPhrase then .error (.attestationFailed r.output)
  else if ¬ containsSubstr r.output builderPhrase then .error (.attestationFailed r.output)
  else .ok ()

/-- The body of the `for filename in ALL_FILES` loop of `validate_slsa`:
existence assertions in source order, then the verifier invocation with the
arguments of `slsaArgs`.  `pathExists` models `os.path.exists`; `run` models
running the verifier binary on an argument list. -/
def validateSlsaFile (pathExists : String → Bool) (run : List String → VerifierResult)
    (filename : String) : Except SlsaError Unit :=
  if ¬ pathExists filename then .error (.missingInput filename)
  else if ¬ pathExists (filename ++ ".intoto.jsonl") then
    .error (.missingInput (filename ++ ".intoto.jsonl"))
  else if containsSubstr filename "darwin" ∧ ¬ pathExists (filename ++ "-unsigned") then
    .error (.missingInput (filename ++ "-unsigned"))
  else checkVerifierResult (run (slsaArgs filename))

/-- The `for filename in ALL_FILES` loop of `validate_slsa`: each artifact is
validated in order, stopping at the first failure (the first raised
exception). -/
def validateSlsaFiles (pathExists : String → Bool) (run : List String → VerifierResult) :
    List String → Except SlsaError Unit
  | [] => .ok ()
  | f :: rest =>
    match validateSlsaFile pathExists run f with
    | .error e => .error e
    | .ok _ => validateSlsaFiles pathExists run rest

/-- `validate_slsa` in full: the preamble asserts the verifier binary exists
and passes the integrity precheck, then the loop validates each artifact of
`ALL_FILES`. -/
def validate_slsa (pathExists : String → Bool) (fileOutOf : String → String)
    (run : List String → VerifierResult) (hishtory_binary : String) :
    Except SlsaError Unit :=
  if ¬ pathExists hishtory_binary then .error (.missingInput hishtory_binary)
  else
    match assertPresentAndNotAscii (pathExists hishtory_binary) hishtory_binary
        (fileOutOf hishtory_binary) with
    | .error _ => .error (.missingInput hishtory_binary)
    | .ok _ => validateSlsaFiles pathExists run ALL_FILES

/-! ## Runtime Metadata Auditor
(`src/scripts/actions-validate.py` lines 53–66, `validate_hishtory_status`)

The function asserts the binary exists, marks it executable, and runs
`<binary> status -v`; in deep-validation mode it asserts the `GITHUB_SHA`
commit hash is nonempty and appears as `"Commit Hash: <sha>"`, that a
`VERSION` file exists, and that `"hiSHtory: v0." + VERSION.strip()` appears;
otherwise it asserts only `"hiSHtory: "` appears.  The `chmod` call and the
status invocation are external commands whose combined effect is the given
`status` output. -/

/-- Python `str.strip()` whitespace set (ASCII): space, tab, newline,
carriage return, vertical tab, form feed. -/
def pyIsSpace (c : Char) : Bool :=
  c = ' ' || c = '\t' || c = '\n' || c = '\x0d' || c = '\x0b' || c = '\x0c'

/-- Python `str.strip()`: drop leading and trailing whitespace. -/
def pyStrip (s : String) : String :=
  ⟨((s.data.dropWhile pyIsSpace).reverse.dropWhile pyIsSpace).reverse⟩

/-- Failure modes of `validate_hishtory_status`.  The two release-mismatch
cases (commit hash, version) are distinct assert statements carrying the
status output. -/
inductive StatusError where
  | missingFile (fn : String)
  | emptyGitHash
  | commitMismatch (status : String)
  | missingVersionFile
  | versionMismatch (status : String)
  | noIdentifier (status : String)
  deriving DecidableEq, Repr

/-- `validate_hishtory_status`: `pathExists` models `os.path.exists filename`,
`status` the decoded output of `<filename> status -v`, `gitHash` the
`GITHUB_SHA` environment variable, and `versionFile` the contents of the
`VERSION` file when it exists. -/
def validate_hishtory_status (pathExists : Bool) (status : String)
    (deep_validation : Bool) (gitHash : String) (versionFile : Option String) :
    Except StatusError Unit :=
  if ¬ pathExists then .error (.missingFile "filename")
  else if deep_validation then
    if gitHash = "" then .error .emptyGitHash
    else if ¬ containsSubstr status ("Commit Hash: " ++ gitHash) then
      .error (.commitMismatch status)
    else
      match versionFile with
      | none => .error .missingVersionFile
      | some v =>
        if ¬ containsSubstr status ("hiSHtory: " ++ ("v0." ++ pyStrip v)) then
          .error (.versionMismatch status)
        else .ok ()
  else
    if ¬ containsSubstr status "hiSHtory: " then .error (.noIdentifier status)
    else .ok ()

/-! ## Artifact Fetcher — polling fetch
(`src/scripts/actions-sign.py` lines 43–53, `waitUntilPublished`)

The loop repeatedly issues `requests.get(url, headers=...)` with an
`authorization: bearer <GITHUB_TOKEN>` header; a 200 status breaks the
loop; otherwise, if `(time.time() - startTime)/60 > 20` the function raises
with the last observed status code and body, else it sleeps 5 seconds and
polls again.  Only after the loop breaks is the body written to the output
file.

The network is modelled as the finite sequence of responses the loop
observes; each response records the elapsed wall-clock seconds at the moment
of its timeout check (the real condition `elapsed/60 > 20` on real-valued
seconds is exactly `elapsed > 1200`). -/

/-- One observed HTTP response: elapsed seconds since `startTime` when the
response is examined, its status code, and its body. -/
structure HttpResponse where
  elapsed : Nat
  status : Nat
  body : Bytes
  deriving DecidableEq, Repr

/-- Events emitted by the polling loop: one authenticated GET per iteration,
and a 5-second sleep between consecutive polls. -/
inductive PollEvent where
  | request (url : String) (authHeader : String)
  | sleep (seconds : Nat)
  deriving DecidableEq, Repr

/-- Outcome of the polling loop proper. -/
inductive FetchOutcome where
  /-- a 200 response broke the loop; its body will be written -/
  | published (body : Bytes)
  /-- the raise: last observed status code and body -/
  | publishTimeout (statusCode : Nat) (body : Bytes)
  /-- the embedding ran past the finite observed response sequence; the
  source loop is unbounded (`while True`), so theorems hypothesize response
  sequences that never reach this case -/
  | noResponse
  deriving DecidableEq, Repr

/-- The `while True` loop of `waitUntilPublished` over the observed response
sequence, also recording the trace of requests and sleeps.  The retry budget
is the hard-coded 20 minutes (1200 seconds). -/
def waitLoop (url token : String) : List HttpResponse → FetchOutcome × List PollEvent
  | [] => (.noResponse, [])
  | r :: rest =>
    if r.status = 200 then
      (.published r.body, [.request url ("bearer " ++ token)])
    else if 1200 < r.elapsed then
      (.publishTimeout r.status r.body, [.request url ("bearer " ++ token)])
    else
      ((waitLoop url token rest).1,
        .request url ("bearer " ++ token) :: .sleep 5 :: (waitLoop url token rest).2)

/-- Errors of the polling fetch. -/
inductive FetchError where
  | publishTimeout (statusCode : Nat) (body : Bytes)
  | noResponse
  deriving DecidableEq, Repr

/-- `waitUntilPublished`: run the polling loop; on success write the 200
body to `output` (`open(output, "wb")` truncates/creates), on the raise leave
the filesystem untouched.  Returns the resulting filesystem next to the
result so the frame effect is visible. -/
def waitUntilPublished (url token : String) (responses : List HttpResponse)
    (fs : Fs) (output : String) : Except FetchError Unit × Fs :=
  match (waitLoop url token responses).1 with
  | .published body => (.ok (), fun p => if p = output then some body else fs p)
  | .publishTimeout s b => (.error (.publishTimeout s b), fs)
  | .noResponse => (.error .noResponse, fs)

/-! ## Signing Orchestrator — sub-step sequencing
(`src/scripts/actions-sign.py` lines 21–31)

`main` runs one `os.system` call whose argument is a multi-line shell script:
write the certificate, create / set-default / unlock the keychain, import the
certificate, set the key partition list, and codesign each of the two darwin
binaries.  `os.system` hands the whole string to `sh -c`; the script uses no
`set -e` and no `&&`, so the shell executes every line regardless of earlier
failures, and `main` does not inspect the `os.system` return value. -/

/-- The sub-steps of the signing shell script, in source order. -/
inductive SignStep where
  | writeCertificate
  | createKeychain
  | defaultKeychain
  | unlockKeychain
  | importCertificate
  | setKeyPartitionList
  | codesignArm64
  | codesignAmd64
  deriving DecidableEq, Repr

/-- The script of `actions-sign.py` lines 22–31, as its ordered sub-steps. -/
def signingScript : List SignStep :=
  [.writeCertificate, .createKeychain, .defaultKeychain, .unlockKeychain,
   .importCertificate, .setKeyPartitionList, .codesignArm64, .codesignAmd64]

/-- Plain `sh` execution of a script with neither `set -e` nor `&&` chains:
every command runs in order and its success or failure (`outcome`) is
recorded but does not affect which later commands run.  Returns the executed
commands paired with their outcomes. -/
def shRun (steps : List SignStep) (outcome : SignStep → Bool) : List (SignStep × Bool) :=
  match steps with
  | [] => []
  | s :: rest => (s, outcome s) :: shRun rest outcome

/-! ## Signing Orchestrator — unsigned sibling and in-place signing

`codesign --force -s <identity> <binary>` rewrites the binary at its original
path.  The duplication of the pre-signing bytes to the `-unsigned` sibling is
required by `validate_slsa` (which asserts `<artifact>-unsigned` exists for
darwin artifacts) but is performed by the release workflow outside the
checked-in scripts. -/

/-- Modelled from the spec: the duplication step of the Signing Orchestrator
(spec §4.4 step 1).  The step that copies each darwin binary to its
`-unsigned` sibling before signing is not among the repository scripts under
`src/`; only its consumer `validate_slsa` is.  Per the spec, the unsigned
binary is duplicated to the sibling path `binary ++ "-unsigned"`, bit
identical, before any signing occurs. -/
def duplicateUnsigned (fs : Fs) (binary : String) : Fs :=
  fun p => if p = binary ++ "-unsigned" then fs binary else fs p

/-- In-place signing (`codesign --force -s ... <binary>` from
`actions-sign.py` lines 29–30): the external tool rewrites the bytes at the
original path; `sign` is its transformation of the binary contents. -/
def signInPlace (sign : Bytes → Bytes) (fs : Fs) (binary : String) : Fs :=
  fun p => if p = binary then (fs binary).map sign else fs p

/-- The per-binary Signing Orchestrator: duplicate the unsigned bytes to the
`-unsigned` sibling first, then sign the binary in place. -/
def signingOrchestrator (sign : Bytes → Bytes) (fs : Fs) (binary : String) : Fs :=
  signInPlace sign (duplicateUnsigned fs binary) binary

/-! ## Install flow
(`src/backend/web/landing/www/install.py` lines 47–61)

After downloading the binary bytes, the script computes
`os.path.join(tmpdir, "hishtory-client")`, removes a stale file at that path,
writes the downloaded bytes, marks them executable, runs
`<path> install [--offline] [args...]` via `os.system`, removes the
temporary file, and only then raises if the exit code was nonzero — the
error message names the already-removed temporary path. -/

/-- `os.path.join(a, b)` for a relative second component: inserts `/` unless
`a` is empty or already ends with a separator. -/
def pyPathJoin (a b : String) : String :=
  if a = "" then b
  else if a.endsWith "/" then a ++ b
  else a ++ "/" ++ b

/-- The command string built by `install.py` lines 53–57. -/
def installCmd (tmpFilePath : String) (offline : Bool) (extraArgs : List String) : String :=
  let cmd := tmpFilePath ++ " install"
  let cmd := if offline then cmd ++ " --offline" else cmd
  if extraArgs ≠ [] then cmd ++ " " ++ String.intercalate " " extraArgs else cmd

/-- Result of the install flow: the shell command that was run, the final
filesystem, and the script outcome (the raised exception message on nonzero
exit). -/
structure InstallRun where
  command : String
  finalFs : Fs
  result : Except String Unit

/-- The install flow of `install.py` lines 47–61, starting from the
downloaded bytes.  `exitCode` is the exit status of the `os.system`
invocation of the downloaded binary. -/
def installFlow (fs : Fs) (tmpdir : String) (binaryBytes : Bytes)
    (offline : Bool) (extraArgs : List String) (exitCode : Nat) : InstallRun :=
  let tmpFilePath := pyPathJoin tmpdir "hishtory-client"
  -- `if os.path.exists(tmpFilePath): os.remove(tmpFilePath)` then the write
  let fs1 : Fs := fun p => if p = tmpFilePath then some binaryBytes else fs p
  let cmd := installCmd tmpFilePath offline extraArgs
  -- `os.remove(tmpFilePath)` runs before the exit-code check
  let fs2 : Fs := fun p => if p = tmpFilePath then none else fs1 p
  if exitCode ≠ 0 then
    { command := cmd, finalFs := fs2,
      result := .error ("failed to install downloaded hishtory client via `"
        ++ tmpFilePath
        ++ " install` (is that directory mounted noexec? Consider setting an alternate directory via the TMPDIR environment variable)!") }
  else
    { command := cmd, finalFs := fs2, result := .ok () }

/-! # Theorems settling the claims -/

/-! ## C5 — Platform Resolver -/

/-- C5 counterexample: the claim lists `(Linux, armv7)` among the supported
pairs, but the dispatch of `install.py` matches the machine string
`"armv7l"`; on the literal pair `("Linux", "armv7")` the resolver takes the
unsupported-platform branch instead of returning an artifact identifier. -/
theorem claim_C5_counterexample :
    resolvedOk (resolveDownloadUrlKey "Linux" "armv7") = false := by decide

/-- C5 (amended): the Platform Resolver maps each of the five supported
pairs — (Linux, x86_64), (Linux, aarch64), (Linux, armv7l), (Darwin, arm64),
(Darwin, x86_64) — to a distinct, stable download-URL key, and any other
pair fails with an unsupported-platform error whose message includes the
literal OS and architecture strings observed. -/
theorem claim_C5_resolver :
    (resolveDownloadUrlKey "Linux" "x86_64" = .ok "linux_amd_64_url"
      ∧ resolveDownloadUrlKey "Linux" "aarch64" = .ok "linux_arm_64_url"
      ∧ resolveDownloadUrlKey "Linux" "armv7l" = .ok "linux_arm_7_url"
      ∧ resolveDownloadUrlKey "Darwin" "arm64" = .ok "darwin_arm_64_url"
      ∧ resolveDownloadUrlKey "Darwin" "x86_64" = .ok "darwin_amd_64_url"
      ∧ ["linux_amd_64_url", "linux_arm_64_url", "linux_arm_7_url",
         "darwin_arm_64_url", "darwin_amd_64_url"].Nodup)
    ∧ ∀ system machine : String,
        ¬ ((system = "Linux" ∧ machine = "x86_64")
          ∨ (system = "Linux" ∧ machine = "aarch64")
          ∨ (system = "Linux" ∧ machine = "armv7l")
          ∨ (system = "Darwin" ∧ machine = "arm64")
          ∨ (system = "Darwin" ∧ machine = "x86_64")) →
        ∃ e, resolveDownloadUrlKey system machine = .error e
          ∧ containsSubstr e system = true
          ∧ containsSubstr e machine = true := by
  constructor
  · exact ⟨rfl, rfl, rfl, rfl, rfl, by decide⟩
  · intro system machine h
    have h1 : ¬ (system = "Linux" ∧ machine = "x86_64") := fun hc => h (Or.inl hc)
    have h2 : ¬ (system = "Linux" ∧ machine = "aarch64") := fun hc => h (Or.inr (Or.inl hc))
    have h3 : ¬ (system = "Linux" ∧ machine = "armv7l") :=
      fun hc => h (Or.inr (Or.inr (Or.inl hc)))
    have h4 : ¬ (system = "Darwin" ∧ machine = "arm64") :=
      fun hc => h (Or.inr (Or.inr (Or.inr (Or.inl hc))))
    have h5 : ¬ (system = "Darwin" ∧ machine = "x86_64") :=
      fun hc => h (Or.inr (Or.inr (Or.inr (Or.inr hc))))
    unfold resolveDownloadUrlKey
    rw [if_neg h1, if_neg h2, if_neg h3, if_neg h4, if_neg h5]
    refine ⟨_, rfl, ?_, ?_⟩
    · simp only [containsSubstr, String.data_append]
      simpa using listContainsSub_append_middle ("No hishtory binary for system=").data
        system.data ((", machine=" ++ machine
          ++ "!\nIf you believe this is a mistake, please open an issue here: https://github.com/ddworken/hishtory/issues").data)
    · simp only [containsSubstr, String.data_append]
      simpa using listContainsSub_append_middle
        (("No hishtory binary for system=" ++ system ++ ", machine=").data) machine.data
        (("!\nIf you believe this is a mistake, please open an issue here: https://github.com/ddworken/hishtory/issues").data)

/-- C5 witness: the amended theorem applied to the unsupported pair
`("Windows", "x86_64")`. -/
theorem claim_C5_witness :
    ∃ e, resolveDownloadUrlKey "Windows" "x86_64" = .error e
      ∧ containsSubstr e "Windows" = true
      ∧ containsSubstr e "x86_64" = true :=
  claim_C5_resolver.2 "Windows" "x86_64" (by decide)

/-! ## C6 — Integrity Precheck -/

/-- C6 counterexample: the claim says a file whose `file` inspection reports
a UTF-8 text encoding fails with CorruptArtifact, but the code only checks
for the substring `"ASCII text"`; a report of `"UTF-8 Unicode text"` does not
contain that substring, so the precheck passes. -/
theorem claim_C6_counterexample :
    assertPresentAndNotAscii true "hishtory-linux-amd64"
      "hishtory-linux-amd64: UTF-8 Unicode text" = .ok () := rfl

/-- C6 (amended): the Integrity Precheck fails with MissingArtifact when the
path does not exist; when the path exists it fails with CorruptArtifact
exactly when the `file` output contains the substring `"ASCII text"` (so a
plain-ASCII text report fails, but a UTF-8 Unicode text report passes), and
it passes on a native-binary report; `notAscii` performs the same type check
without the existence test. -/
theorem claim_C6_precheck :
    (∀ fn fileOut : String,
      (assertPresentAndNotAscii false fn fileOut = .error (.missingArtifact fn))
      ∧ (containsSubstr fileOut "ASCII text" = true →
          assertPresentAndNotAscii true fn fileOut = .error (.corruptArtifact fn fileOut))
      ∧ (containsSubstr fileOut "ASCII text" = false →
          assertPresentAndNotAscii true fn fileOut = .ok ())
      ∧ notAscii fn fileOut = assertPresentAndNotAscii true fn fileOut)
    ∧ assertPresentAndNotAscii true "hishtory-linux-amd64"
        "hishtory-linux-amd64: ELF 64-bit LSB executable, x86-64, statically linked"
        = .ok () := by
  constructor
  · intro fn fileOut
    refine ⟨by simp [assertPresentAndNotAscii], ?_, ?_, ?_⟩
    · intro h; simp [assertPresentAndNotAscii, h]
    · intro h; simp [assertPresentAndNotAscii, h]
    · simp [notAscii, assertPresentAndNotAscii]
  · rfl

/-- C6 witness: the amended theorem applied to an existing file whose `file`
report is `"ASCII text"`. -/
theorem claim_C6_witness :
    assertPresentAndNotAscii true "hishtory-linux-amd64"
      "hishtory-linux-amd64: ASCII text"
      = .error (.corruptArtifact "hishtory-linux-amd64" "hishtory-linux-amd64: ASCII text") :=
  (claim_C6_precheck.1 "hishtory-linux-amd64" "hishtory-linux-amd64: ASCII text").2.1
    (by decide)

/-! ## C3 — Signature Auditor -/

/-- C3: the signature audit passes exactly when the codesign tool is
available and all four expected substrings (signer identity, intermediate
CA, root CA, team identifier) appear in the inspection output; an
unavailable tool fails with ToolingUnavailable; for each of the four
substrings, an output missing just that one while containing the other three
fails with the distinct error naming that substring; and the four
per-substring errors are pairwise distinct. -/
theorem claim_C3_signature_auditor :
    (∀ (codesignAvailable : Bool) (out : String),
      (validate_macos_signature codesignAvailable out = .ok ()
        ↔ codesignAvailable = true
          ∧ containsSubstr out signerIdentityStr = true
          ∧ containsSubstr out intermediateCaStr = true
          ∧ containsSubstr out rootCaStr = true
          ∧ containsSubstr out teamIdStr = true)
      ∧ (codesignAvailable = false →
          validate_macos_signature codesignAvailable out = .error .toolingUnavailable)
      ∧ (codesignAvailable = true →
          containsSubstr out signerIdentityStr = false →
          containsSubstr out intermediateCaStr = true →
          containsSubstr out rootCaStr = true →
          containsSubstr out teamIdStr = true →
          validate_macos_signature codesignAvailable out = .error .missingSignerIdentity)
      ∧ (codesignAvailable = true →
          containsSubstr out signerIdentityStr = true →
          containsSubstr out intermediateCaStr = false →
          containsSubstr out rootCaStr = true →
          containsSubstr out teamIdStr = true →
          validate_macos_signature codesignAvailable out = .error .missingIntermediateCa)
      ∧ (codesignAvailable = true →
          containsSubstr out signerIdentityStr = true →
          containsSubstr out intermediateCaStr = true →
          containsSubstr out rootCaStr = false →
          containsSubstr out teamIdStr = true →
          validate_macos_signature codesignAvailable out = .error .missingRootCa)
      ∧ (codesignAvailable = true →
          containsSubstr out signerIdentityStr = true →
          containsSubstr out intermediateCaStr = true →
          containsSubstr out rootCaStr = true →
          containsSubstr out teamIdStr = false →
          validate_macos_signature codesignAvailable out = .error .missingTeamId))
    ∧ [SigError.missingSignerIdentity, SigError.missingIntermediateCa,
       SigError.missingRootCa, SigError.missingTeamId].Nodup := by
  constructor
  · intro codesignAvailable out
    refine ⟨?_, ?_, ?_, ?_, ?_, ?_⟩
    · unfold validate_macos_signature
      split_ifs with h1 h2 h3 h4 h5 <;> simp_all
    · intro h; simp [validate_macos_signature, h]
    · intro h hs hi hr ht; simp [validate_macos_signature, h, hs]
    · intro h hs hi hr ht; simp [validate_macos_signature, h, hs, hi]
    · intro h hs hi hr ht; simp [validate_macos_signature, h, hs, hi, hr]
    · intro h hs hi hr ht; simp [validate_macos_signature, h, hs, hi, hr, ht]
  · decide

/-- C3 witness: an inspection output containing the intermediate CA, root CA
and team identifier but not the signer identity fails with the error naming
the signer identity. -/
theorem claim_C3_witness :
    validate_macos_signature true
      (intermediateCaStr ++ "\n" ++ rootCaStr ++ "\n" ++ teamIdStr)
      = .error .missingSignerIdentity :=
  (claim_C3_signature_auditor.1 true
      (intermediateCaStr ++ "\n" ++ rootCaStr ++ "\n" ++ teamIdStr)).2.2.1
    rfl (by decide) (by decide) (by decide) (by decide)

/-! ## C1 — Attestation Auditor -/

/-- C1: the per-artifact SLSA validation passes exactly when the binary, its
attestation file `<artifact>.intoto.jsonl`, and — for darwin artifacts — the
`-unsigned` sibling all exist, the verifier exits zero on the arguments of
`slsaArgs`, and its combined output contains both the transparency-log and
the expected-builder acknowledgments; each missing input fails with the
MissingInput error naming that file, distinct from the AttestationFailed
error raised when the verifier runs but an acknowledgment is absent; and for
darwin artifacts the unsigned sibling is passed via the macOS flags. -/
theorem claim_C1_attestation_auditor :
    (∀ (pathExists : String → Bool) (run : List String → VerifierResult)
        (filename : String),
      (validateSlsaFile pathExists run filename = .ok ()
        ↔ pathExists filename = true
          ∧ pathExists (filename ++ ".intoto.jsonl") = true
          ∧ (containsSubstr filename "darwin" = true →
              pathExists (filename ++ "-unsigned") = true)
          ∧ (run (slsaArgs filename)).exitCode = 0
          ∧ containsSubstr (run (slsaArgs filename)).output tlogPhrase = true
          ∧ containsSubstr (run (slsaArgs filename)).output builderPhrase = true)
      ∧ (pathExists filename = false →
          validateSlsaFile pathExists run filename = .error (.missingInput filename))
      ∧ (pathExists filename = true →
          pathExists (filename ++ ".intoto.jsonl") = false →
          validateSlsaFile pathExists run filename
            = .error (.missingInput (filename ++ ".intoto.jsonl")))
      ∧ (pathExists filename = true →
          pathExists (filename ++ ".intoto.jsonl") = true →
          containsSubstr filename "darwin" = true →
          pathExists (filename ++ "-unsigned") = false →
          validateSlsaFile pathExists run filename
            = .error (.missingInput (filename ++ "-unsigned")))
      ∧ (pathExists filename = true →
          pathExists (filename ++ ".intoto.jsonl") = true →
          (containsSubstr filename "darwin" = true →
            pathExists (filename ++ "-unsigned") = true) →
          (run (slsaArgs filename)).exitCode = 0 →
          (containsSubstr (run (slsaArgs filename)).output tlogPhrase = false
            ∨ containsSubstr (run (slsaArgs filename)).output builderPhrase = false) →
          validateSlsaFile pathExists run filename
            = .error (.attestationFailed (run (slsaArgs filename)).output)))
    ∧ (∀ fn out : String, SlsaError.missingInput fn ≠ SlsaError.attestationFailed out)
    ∧ (containsSubstr "hishtory-darwin-amd64" "darwin" = true
        ∧ slsaArgs "hishtory-darwin-amd64"
          = ["validate-binary", "hishtory-darwin-amd64",
             "hishtory-darwin-amd64.intoto.jsonl", "--is_macos=True",
             "--macos_unsigned_binary=hishtory-darwin-amd64-unsigned"]) := by
  refine ⟨?_, by intro fn out h; exact SlsaError.noConfusion h, by constructor <;> rfl⟩
  intro pathExists run filename
  refine ⟨?_, ?_, ?_, ?_, ?_⟩
  · unfold validateSlsaFile checkVerifierResult
    split_ifs with h1 h2 h3 h4 h5 h6 <;> simp_all
  · intro h; simp [validateSlsaFile, h]
  · intro h1 h2; simp [validateSlsaFile, h1, h2]
  · intro h1 h2 h3 h4; simp [validateSlsaFile, h1, h2, h3, h4]
  · intro h1 h2 h3 h4 h5
    unfold validateSlsaFile checkVerifierResult
    rcases h5 with h5 | h5 <;> simp_all

/-- C1 witness: with no file present, validating an artifact fails with
MissingInput naming the artifact itself. -/
theorem claim_C1_witness :
    validateSlsaFile (fun _ => false) (fun _ => ⟨0, ""⟩) "hishtory-linux-amd64"
      = .error (.missingInput "hishtory-linux-amd64") :=
  (claim_C1_attestation_auditor.1 (fun _ => false) (fun _ => ⟨0, ""⟩)
      "hishtory-linux-amd64").2.1 rfl

/-! ## C8 — Runtime Metadata Auditor -/

/-- C8: in deep-validation (strict) mode, `validate_hishtory_status` passes
exactly when the status output contains the exact expected commit hash line
and the exact expected version line formed by prefixing `v0.` to the
(stripped) contents of the VERSION file, failing with the commit- or
version-mismatch error otherwise; in lenient mode it passes exactly when the
output contains the product identifier `"hiSHtory: "`, regardless of commit
hash and version inputs. -/
theorem claim_C8_runtime_metadata :
    ∀ (status gitHash v : String),
      (gitHash ≠ "" →
        (validate_hishtory_status true status true gitHash (some v) = .ok ()
          ↔ containsSubstr status ("Commit Hash: " ++ gitHash) = true
            ∧ containsSubstr status ("hiSHtory: " ++ ("v0." ++ pyStrip v)) = true))
      ∧ (gitHash ≠ "" →
          containsSubstr status ("Commit Hash: " ++ gitHash) = false →
          validate_hishtory_status true status true gitHash (some v)
            = .error (.commitMismatch status))
      ∧ (gitHash ≠ "" →
          containsSubstr status ("Commit Hash: " ++ gitHash) = true →
          containsSubstr status ("hiSHtory: " ++ ("v0." ++ pyStrip v)) = false →
          validate_hishtory_status true status true gitHash (some v)
            = .error (.versionMismatch status))
      ∧ (validate_hishtory_status true status false gitHash (some v) = .ok ()
          ↔ containsSubstr status "hiSHtory: " = true) := by
  intro status gitHash v
  refine ⟨?_, ?_, ?_, ?_⟩
  · intro h
    unfold validate_hishtory_status
    split_ifs <;> simp_all
  · intro h h1; simp [validate_hishtory_status, h, h1]
  · intro h h1 h2; simp [validate_hishtory_status, h, h1, h2]
  · unfold validate_hishtory_status
    split_ifs with h1 h2 <;> simp_all

/-- C8 witness: a status output carrying the version line but the wrong
commit hash fails strict validation with the commit-mismatch error, and the
same output passes lenient validation. -/
theorem claim_C8_witness :
    validate_hishtory_status true "hiSHtory: v0.295" true "abc123" (some "295\n")
      = .error (.commitMismatch "hiSHtory: v0.295")
    ∧ validate_hishtory_status true "hiSHtory: v0.295" false "abc123" (some "295\n")
      = .ok () :=
  ⟨(claim_C8_runtime_metadata "hiSHtory: v0.295" "abc123" "295\n").2.1
      (by decide) (by decide),
    ((claim_C8_runtime_metadata "hiSHtory: v0.295" "abc123" "295\n").2.2.2).2
      (by decide)⟩

/-! ## C4 and C9 — polling fetch -/

theorem waitLoop_events (url token : String) (responses : List HttpResponse) :
    ∀ e ∈ (waitLoop url token responses).2,
      e = .request url ("bearer " ++ token) ∨ e = .sleep 5 := by
  induction responses with
  | nil => simp [waitLoop]
  | cons r rest ih =>
    intro e he
    unfold waitLoop at he
    split_ifs at he
    · simp only [List.mem_singleton] at he
      exact Or.inl he
    · simp only [List.mem_singleton] at he
      exact Or.inl he
    · simp only [List.mem_cons] at he
      rcases he with he | he | he
      · exact Or.inl he
      · exact Or.inr he
      · exact ih e he

theorem waitLoop_skip (url token : String) (pre rest : List HttpResponse)
    (h : ∀ p ∈ pre, p.status ≠ 200 ∧ ¬ 1200 < p.elapsed) :
    (waitLoop url token (pre ++ rest)).1 = (waitLoop url token rest).1 := by
  induction pre with
  | nil => rfl
  | cons q t ih =>
    have hq := h q (by simp)
    have ht : ∀ p ∈ t, p.status ≠ 200 ∧ ¬ 1200 < p.elapsed :=
      fun p hp => h p (by simp [hp])
    simp [waitLoop, hq.1, hq.2, ih ht]

/-- C4: the polling fetch issues only authenticated GETs of the one URL and
5-second sleeps; when the responses before the first 200 are all non-200 and
within the 20-minute (1200-second) budget, it succeeds and writes exactly
the body of that 200 response to the destination (leaving every other path
unchanged); and when a non-200 response is observed past the budget after
only in-budget non-200 responses, it fails with the publish-timeout error
carrying that last response's status code and body. -/
theorem claim_C4_polling_fetch :
    ∀ (url token output : String) (fs : Fs) (pre rest : List HttpResponse)
      (r : HttpResponse),
      (∀ p ∈ pre, p.status ≠ 200 ∧ p.elapsed ≤ 1200) →
      (∀ e ∈ (waitLoop url token (pre ++ r :: rest)).2,
          e = .request url ("bearer " ++ token) ∨ e = .sleep 5)
      ∧ (r.status = 200 →
          (waitUntilPublished url token (pre ++ r :: rest) fs output).1 = .ok ()
          ∧ (waitUntilPublished url token (pre ++ r :: rest) fs output).2 output
              = some r.body
          ∧ ∀ p, p ≠ output →
              (waitUntilPublished url token (pre ++ r :: rest) fs output).2 p = fs p)
      ∧ (r.status ≠ 200 → 1200 < r.elapsed →
          (waitUntilPublished url token (pre ++ r :: rest) fs output).1
            = .error (.publishTimeout r.status r.body)) := by
  intro url token output fs pre rest r hpre
  have hpre' : ∀ p ∈ pre, p.status ≠ 200 ∧ ¬ 1200 < p.elapsed :=
    fun p hp => ⟨(hpre p hp).1, by have := (hpre p hp).2; omega⟩
  refine ⟨waitLoop_events url token _, ?_, ?_⟩
  · intro h200
    have hskip := waitLoop_skip url token pre (r :: rest) hpre'
    have hloop : (waitLoop url token (pre ++ r :: rest)).1 = .published r.body := by
      rw [hskip]; simp [waitLoop, h200]
    refine ⟨?_, ?_, ?_⟩
    · simp [waitUntilPublished, hloop]
    · simp [waitUntilPublished, hloop]
    · intro p hp; simp [waitUntilPublished, hloop, hp]
  · intro hne helapsed
    have hskip := waitLoop_skip url token pre (r :: rest) hpre'
    have hloop : (waitLoop url token (pre ++ r :: rest)).1
        = .publishTimeout r.status r.body := by
      rw [hskip]; simp [waitLoop, hne, helapsed]
    simp [waitUntilPublished, hloop]

/-- C4 witness: nine consecutive 404 responses inside the budget followed by
a 200 response: the fetch succeeds and writes that 200 body. -/
theorem claim_C4_witness :
    (waitUntilPublished "https://github.com/ddworken/hishtory/releases/download/v1/hishtory-darwin-arm64"
        "tok"
        ([⟨0, 404, []⟩, ⟨6, 404, []⟩, ⟨12, 404, []⟩, ⟨18, 404, []⟩, ⟨24, 404, []⟩,
          ⟨30, 404, []⟩, ⟨36, 404, []⟩, ⟨42, 404, []⟩, ⟨48, 404, []⟩]
          ++ ⟨54, 200, [7, 7, 7]⟩ :: [])
        (fun _ => none) "hishtory-darwin-arm64").1 = .ok ()
    ∧ (waitUntilPublished "https://github.com/ddworken/hishtory/releases/download/v1/hishtory-darwin-arm64"
        "tok"
        ([⟨0, 404, []⟩, ⟨6, 404, []⟩, ⟨12, 404, []⟩, ⟨18, 404, []⟩, ⟨24, 404, []⟩,
          ⟨30, 404, []⟩, ⟨36, 404, []⟩, ⟨42, 404, []⟩, ⟨48, 404, []⟩]
          ++ ⟨54, 200, [7, 7, 7]⟩ :: [])
        (fun _ => none) "hishtory-darwin-arm64").2 "hishtory-darwin-arm64"
        = some [7, 7, 7] := by
  have hp : ∀ p ∈ ([⟨0, 404, []⟩, ⟨6, 404, []⟩, ⟨12, 404, []⟩, ⟨18, 404, []⟩,
      ⟨24, 404, []⟩, ⟨30, 404, []⟩, ⟨36, 404, []⟩, ⟨42, 404, []⟩, ⟨48, 404, []⟩] :
      List HttpResponse), p.status ≠ 200 ∧ p.elapsed ≤ 1200 := by decide
  have h := claim_C4_polling_fetch
    "https://github.com/ddworken/hishtory/releases/download/v1/hishtory-darwin-arm64"
    "tok" "hishtory-darwin-arm64" (fun _ => none)
    [⟨0, 404, []⟩, ⟨6, 404, []⟩, ⟨12, 404, []⟩, ⟨18, 404, []⟩, ⟨24, 404, []⟩,
     ⟨30, 404, []⟩, ⟨36, 404, []⟩, ⟨42, 404, []⟩, ⟨48, 404, []⟩]
    [] ⟨54, 200, [7, 7, 7]⟩ hp
  have h2 := h.2.1 rfl
  exact ⟨h2.1, h2.2.1⟩

/-- C9: the destination file is written only after a 200 response; when the
polling fetch fails (publish timeout, or the observed response sequence runs
out), the returned filesystem is exactly the input filesystem — the
destination path is neither created nor modified. -/
theorem claim_C9_no_write_on_failure :
    ∀ (url token output : String) (fs : Fs) (responses : List HttpResponse)
      (e : FetchError),
      (waitUntilPublished url token responses fs output).1 = .error e →
      (waitUntilPublished url token responses fs output).2 = fs := by
  intro url token output fs responses e h
  unfold waitUntilPublished at h ⊢
  cases hl : (waitLoop url token responses).1 <;> simp [hl] at h ⊢

/-- C9 witness: a single 404 response past the budget yields the timeout
error and leaves the filesystem untouched. -/
theorem claim_C9_witness :
    (waitUntilPublished "u" "t" [⟨1300, 404, [9]⟩] (fun _ => none) "out").2
      = (fun _ => none : Fs) :=
  claim_C9_no_write_on_failure "u" "t" "out" (fun _ => none) [⟨1300, 404, [9]⟩]
    (.publishTimeout 404 [9]) rfl

/-! ## C7 — Signing Orchestrator sub-step sequencing -/

/-- Outcome assignment in which the keychain-creation sub-step fails and
every other sub-step succeeds. -/
def failCreateKeychainOutcome : SignStep → Bool :=
  fun s => !(s == SignStep.createKeychain)

/-- C7 counterexample: with keychain creation failing and every other
sub-step succeeding, the later sub-steps — including both signing
invocations — still execute: the shell script is run by `sh` without
`set -e`, so no sub-step aborts the remaining ones. -/
theorem claim_C7_counterexample :
    failCreateKeychainOutcome SignStep.createKeychain = false
    ∧ (SignStep.codesignArm64, true) ∈ shRun signingScript failCreateKeychainOutcome
    ∧ (SignStep.codesignAmd64, true) ∈ shRun signingScript failCreateKeychainOutcome
    ∧ (shRun signingScript failCreateKeychainOutcome).map Prod.fst = signingScript := by
  decide

theorem shRun_executes_all (steps : List SignStep) (outcome : SignStep → Bool) :
    (shRun steps outcome).map Prod.fst = steps := by
  induction steps with
  | nil => rfl
  | cons s rest ih => simp [shRun, ih]

/-- C7 (amended): the signing sub-steps are issued as one `os.system` shell
script with no fail-fast; for every assignment of sub-step outcomes, every
sub-step of the script executes, in source order, regardless of earlier
failures. -/
theorem claim_C7_no_fail_fast :
    ∀ outcome : SignStep → Bool,
      (shRun signingScript outcome).map Prod.fst = signingScript :=
  fun outcome => shRun_executes_all signingScript outcome

/-! ## C2 — unsigned sibling duplication -/

theorem append_unsigned_ne (s : String) : s ++ "-unsigned" ≠ s := by
  intro h
  have hlen := congrArg String.length h
  simp only [String.length_append] at hlen
  have h9 : ("-unsigned" : String).length = 9 := rfl
  rw [h9] at hlen
  omega

/-- C2: for a macOS binary present on disk, the Signing Orchestrator first
duplicates its bytes to the `-unsigned` sibling and then signs in place;
afterwards the sibling holds exactly the pre-signing bytes, the original
path holds the signed bytes, and (since signing rewrites the binary) the two
differ. -/
theorem claim_C2_unsigned_sibling :
    ∀ (fs : Fs) (binary : String) (b : Bytes) (sign : Bytes → Bytes),
      fs binary = some b →
      sign b ≠ b →
      signingOrchestrator sign fs binary (binary ++ "-unsigned") = some b
      ∧ signingOrchestrator sign fs binary binary = some (sign b)
      ∧ signingOrchestrator sign fs binary binary
          ≠ signingOrchestrator sign fs binary (binary ++ "-unsigned") := by
  intro fs binary b sign hb hsign
  have hne := append_unsigned_ne binary
  have h1 : signingOrchestrator sign fs binary (binary ++ "-unsigned") = some b := by
    simp [signingOrchestrator, signInPlace, duplicateUnsigned, hne, hb]
  have hne2 : binary ≠ binary ++ "-unsigned" := fun h => hne h.symm
  have h2 : signingOrchestrator sign fs binary binary = some (sign b) := by
    simp [signingOrchestrator, signInPlace, duplicateUnsigned, hne2, hb]
  refine ⟨h1, h2, ?_⟩
  rw [h1, h2]
  simp [hsign]

/-- C2 witness: a concrete filesystem holding one darwin binary, and a
signing transformation that prepends a byte. -/
theorem claim_C2_witness :
    signingOrchestrator (fun l => 9 :: l)
        (fun p => if p = "hishtory-darwin-amd64" then some [1, 2, 3] else none)
        "hishtory-darwin-amd64" ("hishtory-darwin-amd64" ++ "-unsigned")
      = some [1, 2, 3]
    ∧ signingOrchestrator (fun l => 9 :: l)
        (fun p => if p = "hishtory-darwin-amd64" then some [1, 2, 3] else none)
        "hishtory-darwin-amd64" "hishtory-darwin-amd64"
      = some [9, 1, 2, 3] := by
  have h := claim_C2_unsigned_sibling
    (fun p => if p = "hishtory-darwin-amd64" then some [1, 2, 3] else none)
    "hishtory-darwin-amd64" [1, 2, 3] (fun l => 9 :: l) (by decide) (by decide)
  exact ⟨h.1, h.2.1⟩

/-! ## C10 — install flow temp file lifecycle -/

/-- C10: after the install flow runs the downloaded binary, the temporary
file is absent from the final filesystem whether the install subcommand
exited zero or nonzero; on a nonzero exit the raised error message names the
temporary path — a path already removed in that same final filesystem. -/
theorem claim_C10_tmpfile_lifecycle :
    ∀ (fs : Fs) (tmpdir : String) (binaryBytes : Bytes) (offline : Bool)
      (extraArgs : List String) (exitCode : Nat),
      (installFlow fs tmpdir binaryBytes offline extraArgs exitCode).finalFs
          (pyPathJoin tmpdir "hishtory-client") = none
      ∧ (exitCode ≠ 0 →
          ∃ msg, (installFlow fs tmpdir binaryBytes offline extraArgs exitCode).result
              = .error msg
            ∧ containsSubstr msg (pyPathJoin tmpdir "hishtory-client") = true)
      ∧ (exitCode = 0 →
          (installFlow fs tmpdir binaryBytes offline extraArgs exitCode).result
            = .ok ()) := by
  intro fs tmpdir binaryBytes offline extraArgs exitCode
  refine ⟨?_, ?_, ?_⟩
  · unfold installFlow
    split_ifs <;> simp
  · intro h
    unfold installFlow
    rw [if_pos h]
    refine ⟨_, rfl, ?_⟩
    simp only [containsSubstr, String.data_append]
    simpa using listContainsSub_append_middle
      ("failed to install downloaded hishtory client via `").data
      (pyPathJoin tmpdir "hishtory-client").data
      ((" install` (is that directory mounted noexec? Consider setting an alternate directory via the TMPDIR environment variable)!").data)
  · intro h; simp [installFlow, h]

/-- C10 witness: a nonzero install exit in `/tmp/`: the temporary file is
gone from the final filesystem and the error names the removed path. -/
theorem claim_C10_witness :
    (installFlow (fun _ => none) "/tmp/" [1] false [] 256).finalFs
        (pyPathJoin "/tmp/" "hishtory-client") = none
    ∧ ∃ msg, (installFlow (fun _ => none) "/tmp/" [1] false [] 256).result = .error msg
        ∧ containsSubstr msg (pyPathJoin "/tmp/" "hishtory-client") = true := by
  have h := claim_C10_tmpfile_lifecycle (fun _ => none) "/tmp/" [1] false [] 256
  exact ⟨h.1, h.2.1 (by decide)⟩

end Hishtory
